import Mathlib

/-!
Verification of the personalized conversational session layer of the
health_app backend (back_end/app/api/v1/chatbot.py and
back_end/app/api/v1/prompts.py), shallowly embedded in Lean 4.

Conventions of the embedding:
* Python floats are modelled as rationals (ℚ); all the properties proved
  here concern exact guards and exact zero results, not rounding.
* Heterogeneous Python values reaching `_parse_bool` are modelled by the
  inductive `PyVal`.
* Python dictionaries holding user records are modelled as structures of
  `Option`-typed fields; a `none` field is an absent key.  Python
  truthiness (`x or d`, `if x:`) is translated field-type by field-type
  (`none`, `0`, `""` and `False` are falsy).
* The in-memory `conversations` dict is a map `String → Option (List Msg)`.
* The SSE frames yielded by the streaming endpoint are modelled as the
  inductive `StreamEvent`; JSON serialisation is a rendering layer and is
  not modelled.
-/

/-- Roles of chat messages (`HumanMessage` / `AIMessage`). -/
inductive Role where
  | user
  | assistant
  deriving DecidableEq, Repr

/-- One message of a `ChatMessageHistory`. -/
structure Msg where
  role : Role
  content : String
  deriving DecidableEq, Repr

/-- Heterogeneous Python values, as they may appear for the boolean
medical-condition flags coming from Firestore. -/
inductive PyVal where
  | none
  | bool (b : Bool)
  | int (n : Int)
  | float (q : ℚ)
  | str (s : String)
  deriving DecidableEq, Repr

/-- Python's `str.lower()`: lower-case every character.  (Equivalent to
`String.toLower`, restated over the character list so that the kernel can
evaluate it.) -/
def pyLower (s : String) : String :=
  ⟨s.data.map Char.toLower⟩

/-- `_parse_bool` of prompts.py: parse various boolean representations.
`None → False`; a native bool is returned as is; an int is `True` iff it
equals 1; a string is `True` iff its lower-casing is one of
`true`, `1`, `yes`; anything else is `False`.  The `isinstance(value, bool)`
check precedes the `isinstance(value, int)` check in the source, which the
separate `PyVal` constructors reflect. -/
def _parse_bool : PyVal → Bool
  | .none => false
  | .bool b => b
  | .int n => n == 1
  | .float _ => false
  | .str s => pyLower s == "true" || pyLower s == "1" || pyLower s == "yes"

/-- Python `x or d` for an optional int-valued key: `None` and `0` are
falsy and yield the default. -/
def pyOrInt (v : Option Int) (d : Int) : Int :=
  match v with
  | some n => if n = 0 then d else n
  | none => d

/-- Python `x or d` for an optional float-valued key (floats as ℚ). -/
def pyOrRat (v : Option ℚ) (d : ℚ) : ℚ :=
  match v with
  | some q => if q = 0 then d else q
  | none => d

/-- Python `x or d` for an optional string-valued key: `None` and `""`
are falsy and yield the default. -/
def pyOrStr (v : Option String) (d : String) : String :=
  match v with
  | some s => if s = "" then d else s
  | none => d

/-- Python truthiness of an optional string (`if x:`). -/
def strTruthy (v : Option String) : Bool :=
  match v with
  | some s => s != ""
  | none => false

/-- A raw user record as it comes out of the document store and is fed to
`_normalize_user_data`: a dictionary modelled as a structure of optional
fields (`none` = absent key).  The six medical-condition flags keep the
heterogeneous `PyVal` type because `_parse_bool` accepts bools, ints,
strings and `None` for them. -/
structure RawUser where
  user_id : Option String := none
  age : Option Int := none
  gender : Option String := none
  weight_kg : Option ℚ := none
  height_cm : Option ℚ := none
  activity_level : Option String := none
  has_hypertension : PyVal := .none
  has_diabetes : PyVal := .none
  has_heart_condition : PyVal := .none
  has_asthma : PyVal := .none
  has_high_cholesterol : PyVal := .none
  has_thyroid_disorder : PyVal := .none
  other_conditions : Option String := none
  allergies : Option String := none
  medications : Option String := none
  medical_conditions : Option String := none
  goal_type : Option String := none
  goal_intensity : Option String := none
  target_weight_kg : Option ℚ := none
  fitness_goals : Option String := none
  daily_calorie_goal : Option Int := none
  daily_step_goal : Option Int := none
  daily_distance_goal : Option ℚ := none
  daily_active_minutes_goal : Option Int := none
  daily_protein_goal : Option Int := none
  daily_carbs_goal : Option Int := none
  daily_fats_goal : Option Int := none
  deriving DecidableEq, Repr

/-- The normalized user data produced by `_normalize_user_data`. -/
structure NormUser where
  user_id : String
  age : Int
  gender : String
  weight_kg : ℚ
  height_cm : ℚ
  activity_level : String
  has_hypertension : Bool
  has_diabetes : Bool
  has_heart_condition : Bool
  has_asthma : Bool
  has_high_cholesterol : Bool
  has_thyroid_disorder : Bool
  other_conditions : Option String
  allergies : Option String
  medications : Option String
  medical_conditions : Option String
  goal_type : Option String
  goal_intensity : Option String
  target_weight_kg : Option ℚ
  fitness_goals : Option String
  daily_calorie_goal : Int
  daily_step_goal : Int
  daily_distance_goal : ℚ
  daily_active_minutes_goal : Int
  daily_protein_goal : Int
  daily_carbs_goal : Int
  daily_fats_goal : Int
  deriving DecidableEq, Repr

/-- `_normalize_user_data` of prompts.py: defaults the required fields via
Python `or`, parses the six boolean flags with `_parse_bool`, copies the
optional text/goal fields unchanged, and defaults the daily targets. -/
def _normalize_user_data (user_data : RawUser) : NormUser where
  user_id := user_data.user_id.getD "Unknown"
  age := pyOrInt user_data.age 0
  gender := pyOrStr user_data.gender "Not specified"
  weight_kg := pyOrRat user_data.weight_kg 0
  height_cm := pyOrRat user_data.height_cm 0
  activity_level := pyOrStr user_data.activity_level "Moderate"
  has_hypertension := _parse_bool user_data.has_hypertension
  has_diabetes := _parse_bool user_data.has_diabetes
  has_heart_condition := _parse_bool user_data.has_heart_condition
  has_asthma := _parse_bool user_data.has_asthma
  has_high_cholesterol := _parse_bool user_data.has_high_cholesterol
  has_thyroid_disorder := _parse_bool user_data.has_thyroid_disorder
  other_conditions := user_data.other_conditions
  allergies := user_data.allergies
  medications := user_data.medications
  medical_conditions := user_data.medical_conditions
  goal_type := user_data.goal_type
  goal_intensity := user_data.goal_intensity
  target_weight_kg := user_data.target_weight_kg
  fitness_goals := user_data.fitness_goals
  daily_calorie_goal := pyOrInt user_data.daily_calorie_goal 2000
  daily_step_goal := pyOrInt user_data.daily_step_goal 10000
  daily_distance_goal := pyOrRat user_data.daily_distance_goal 5
  daily_active_minutes_goal := pyOrInt user_data.daily_active_minutes_goal 30
  daily_protein_goal := pyOrInt user_data.daily_protein_goal 150
  daily_carbs_goal := pyOrInt user_data.daily_carbs_goal 250
  daily_fats_goal := pyOrInt user_data.daily_fats_goal 70

/-- The BMI computation of `create_health_mentor_prompt` (prompts.py line
118): `weight / ((height / 100) ** 2)` when both weight and height are
positive, else `0`. -/
def computeBMI (weight height : ℚ) : ℚ :=
  if 0 < weight ∧ 0 < height then weight / ((height / 100) ^ 2) else 0

/-- The list of active medical conditions built by successive
`conditions.append(...)` calls in `create_health_mentor_prompt`
(prompts.py lines 121-135), in source order, ending with the truthy
`other_conditions` free text. -/
def conditionsList (u : NormUser) : List String :=
  (if u.has_hypertension then ["hypertension"] else []) ++
  (if u.has_diabetes then ["diabetes"] else []) ++
  (if u.has_heart_condition then ["heart condition"] else []) ++
  (if u.has_asthma then ["asthma"] else []) ++
  (if u.has_high_cholesterol then ["high cholesterol"] else []) ++
  (if u.has_thyroid_disorder then ["thyroid disorder"] else []) ++
  (match u.other_conditions with
   | some s => if s = "" then [] else [s]
   | none => [])

/-- `conditions_str` (prompts.py line 137): `", ".join(conditions)` if the
list is non-empty, else `"none reported"`. -/
def conditionsStr (u : NormUser) : String :=
  if conditionsList u = [] then "none reported"
  else String.intercalate ", " (conditionsList u)

/-- A model of Python's `f"{x:.1f}"` fixed-point rendering on our ℚ model
of floats: round to one decimal and print `i.d`. -/
def formatFix1 (q : ℚ) : String :=
  let t : Int := round (q * 10)
  let sign := if t < 0 then "-" else ""
  sign ++ toString (t.natAbs / 10) ++ "." ++ toString (t.natAbs % 10)

/-- A model of Python's `f"{x}"` rendering of a float (ℚ): one decimal
place, like `5.0` for `5.0`. -/
def formatFloat (q : ℚ) : String :=
  formatFix1 q

/-- The f-string template of `create_health_mentor_prompt` (prompts.py
lines 147-210) with the interpolated pieces as parameters.  Apostrophes
of the source text are written `\x27`. -/
def promptTemplate (name ageS genderS weightS heightS bmiS activityS
    conditionsS allergiesS medicationsS goalTypeS goalIntensityS
    targetWeightS fitnessGoalsS calS stepsS distS minsS protS carbsS
    fatsS : String) : String :=
  "You are Alex, an expert health mentor and wellness coach with deep knowledge in nutrition, exercise science, and lifestyle medicine.\n\n" ++
  "# USER PROFILE\n- Name: User #" ++ name ++
  "\n- Age: " ++ ageS ++ " years old\n- Gender: " ++ genderS ++
  "\n- Weight: " ++ weightS ++ " kg\n- Height: " ++ heightS ++
  " cm\n- BMI: " ++ bmiS ++ "\n- Activity Level: " ++ activityS ++
  "\n\n# MEDICAL CONDITIONS\n" ++ conditionsS ++
  "\n\n# ALLERGIES & MEDICATIONS\n- Allergies: " ++ allergiesS ++
  "\n- Current Medications: " ++ medicationsS ++
  "\n\n# FITNESS GOALS\n- Goal Type: " ++ goalTypeS ++
  "\n- Goal Intensity: " ++ goalIntensityS ++
  "\n- Target Weight: " ++ targetWeightS ++
  " kg\n- Fitness Goals: " ++ fitnessGoalsS ++
  "\n\n# DAILY TARGETS\n- Calories: " ++ calS ++
  " kcal\n- Steps: " ++ stepsS ++ " steps\n- Distance: " ++ distS ++
  " km\n- Active Minutes: " ++ minsS ++
  " minutes\n- Macros: Protein " ++ protS ++ "g | Carbs " ++ carbsS ++
  "g | Fats " ++ fatsS ++ "g\n\n" ++
  "# YOUR ROLE & EXPERTISE\nYou are a certified health coach specializing in:\n1. **Personalized Nutrition**: Provide meal plans, macro guidance, and dietary advice tailored to the user\x27s goals and medical conditions\n2. **Exercise Programming**: Design safe, effective workout routines considering their fitness level and health constraints\n3. **Lifestyle Optimization**: Offer guidance on sleep, stress management, and daily habits\n4. **Medical Awareness**: Always consider their medical conditions when giving advice. NEVER contradict medical advice or suggest stopping medications.\n\n" ++
  "# CRITICAL SAFETY GUIDELINES\n- ALWAYS account for their medical conditions in your recommendations\n- If they have hypertension: recommend low-sodium foods, avoid intense exercises without clearance\n- If they have diabetes: focus on blood sugar management, emphasize complex carbs and fiber\n- If they have heart conditions: prioritize heart-healthy foods, recommend consulting doctor before intense exercise\n- If they have high cholesterol: suggest foods that lower LDL, emphasize omega-3s\n- NEVER diagnose conditions or suggest stopping prescribed medications\n- For serious symptoms or concerns, ALWAYS recommend consulting their healthcare provider\n- Be especially cautious with supplements if they\x27re on medications\n\n" ++
  "# COMMUNICATION STYLE\n- Be supportive, motivating, and empathetic\n- Use evidence-based recommendations\n- Explain the \"why\" behind your advice\n- Celebrate progress and encourage consistency\n- Be realistic and sustainable in your suggestions\n- Speak in clear, accessible language (avoid excessive medical jargon)\n- When discussing food, provide specific examples and alternatives\n\n" ++
  "# RESPONSE FORMAT\n- Keep answers concise but informative\n- Use bullet points for lists (meal suggestions, exercise routines)\n- Provide actionable advice they can implement today\n- When relevant, reference their specific goals and conditions\n\n" ++
  "Remember: You\x27re their partner in health, not their doctor. Empower them with knowledge while respecting medical boundaries."

/-- `create_health_mentor_prompt` of prompts.py: normalize the raw user
data, compute the BMI, build the conditions line and the optional-field
fallbacks, and render the template. -/
def create_health_mentor_prompt (raw : RawUser) : String :=
  let u := _normalize_user_data raw
  let weight := u.weight_kg
  let height := u.height_cm
  let bmi := computeBMI weight height
  let conditions_str := conditionsStr u
  let allergies_str := pyOrStr u.allergies "none reported"
  let medications_str := pyOrStr u.medications "none reported"
  let goal_type_str := pyOrStr u.goal_type "general wellness"
  let goal_intensity_str := pyOrStr u.goal_intensity "moderate"
  let target_weight_str :=
    match u.target_weight_kg with
    | some q => if q = 0 then "not set" else formatFix1 q
    | none => "not set"
  let fitness_goals_str := pyOrStr u.fitness_goals "not specified"
  promptTemplate (u.user_id.take 8) (toString u.age) u.gender
    (formatFix1 weight) (formatFix1 height) (formatFix1 bmi)
    u.activity_level conditions_str allergies_str medications_str
    goal_type_str goal_intensity_str target_weight_str fitness_goals_str
    (toString u.daily_calorie_goal) (toString u.daily_step_goal)
    (formatFloat u.daily_distance_goal)
    (toString u.daily_active_minutes_goal)
    (toString u.daily_protein_goal) (toString u.daily_carbs_goal)
    (toString u.daily_fats_goal)

/-- Modelled from the spec: the `FirebaseService` class
(app/services/firebase_service.py is not part of the sources here).  Per
§6 the document store is a key-value lookup, `get(collection, key) →
record | absent`: `users` is the base user record of the `users`
collection and `profiles` the `users/\x7buserId\x7d/profile/data`
sub-record. -/
structure FirebaseStore where
  users : String → Option RawUser
  profiles : String → Option RawUser

/-- Dictionary merge `combined_data = \x7b**user\x7d; combined_data.update(profile)`
of `get_user_prompt_data`: a key present in the profile record overrides
the base record. -/
def mergeRecords (user profile : RawUser) : RawUser where
  user_id := profile.user_id <|> user.user_id
  age := profile.age <|> user.age
  gender := profile.gender <|> user.gender
  weight_kg := profile.weight_kg <|> user.weight_kg
  height_cm := profile.height_cm <|> user.height_cm
  activity_level := profile.activity_level <|> user.activity_level
  has_hypertension :=
    if profile.has_hypertension = .none then user.has_hypertension
    else profile.has_hypertension
  has_diabetes :=
    if profile.has_diabetes = .none then user.has_diabetes
    else profile.has_diabetes
  has_heart_condition :=
    if profile.has_heart_condition = .none then user.has_heart_condition
    else profile.has_heart_condition
  has_asthma :=
    if profile.has_asthma = .none then user.has_asthma
    else profile.has_asthma
  has_high_cholesterol :=
    if profile.has_high_cholesterol = .none then user.has_high_cholesterol
    else profile.has_high_cholesterol
  has_thyroid_disorder :=
    if profile.has_thyroid_disorder = .none then user.has_thyroid_disorder
    else profile.has_thyroid_disorder
  other_conditions := profile.other_conditions <|> user.other_conditions
  allergies := profile.allergies <|> user.allergies
  medications := profile.medications <|> user.medications
  medical_conditions := profile.medical_conditions <|> user.medical_conditions
  goal_type := profile.goal_type <|> user.goal_type
  goal_intensity := profile.goal_intensity <|> user.goal_intensity
  target_weight_kg := profile.target_weight_kg <|> user.target_weight_kg
  fitness_goals := profile.fitness_goals <|> user.fitness_goals
  daily_calorie_goal := profile.daily_calorie_goal <|> user.daily_calorie_goal
  daily_step_goal := profile.daily_step_goal <|> user.daily_step_goal
  daily_distance_goal := profile.daily_distance_goal <|> user.daily_distance_goal
  daily_active_minutes_goal :=
    profile.daily_active_minutes_goal <|> user.daily_active_minutes_goal
  daily_protein_goal := profile.daily_protein_goal <|> user.daily_protein_goal
  daily_carbs_goal := profile.daily_carbs_goal <|> user.daily_carbs_goal
  daily_fats_goal := profile.daily_fats_goal <|> user.daily_fats_goal

/-- `get_user_prompt_data` of prompts.py: fetch the base user record
(absent base record → `None`), fetch the profile sub-record, and merge
(profile fields override base fields). -/
def get_user_prompt_data (store : FirebaseStore) (user_id : String) :
    Option RawUser :=
  match store.users user_id with
  | none => none
  | some user =>
      match store.profiles user_id with
      | some profile => some (mergeRecords user profile)
      | none => some user

/-- The in-memory `conversations` dict of chatbot.py: conversation id →
message history. -/
def ConvMap : Type := String → Option (List Msg)

/-- Point update of the conversations map. -/
def setConv (convs : ConvMap) (conv_id : String) (hist : List Msg) :
    ConvMap :=
  fun k => if k = conv_id then some hist else convs k

/-- `get_conversation` of chatbot.py: create an empty history on first
reference to an unseen conversation id, and return the history together
with the (possibly extended) map. -/
def get_conversation (conv_id : String) (convs : ConvMap) :
    List Msg × ConvMap :=
  match convs conv_id with
  | some h => (h, convs)
  | none => ([], setConv convs conv_id [])

/-- `request.conversation_id or str(uuid.uuid4())` (chatbot.py lines 70
and 117): Python `or` falls through to the fresh uuid on `None` and on
the falsy empty string. -/
def resolveConvId (conversation_id : Option String) (freshId : String) :
    String :=
  match conversation_id with
  | some s => if s = "" then freshId else s
  | none => freshId

/-- The request body of both chat endpoints. -/
structure ChatRequest where
  message : String
  user_id : String
  conversation_id : Option String := none
  deriving DecidableEq, Repr

/-- The language-model backend of §6: `complete` is `chain.invoke` (it
may fail, raising an exception modelled by `Except.error`); `stream` is
`chain.stream`, returning the fragments successfully produced in
generation order together with `some message` when the iterator raises
after those fragments (a failure partway through streaming) and `none`
when it completes. -/
structure LLMBackend where
  complete : String → List Msg → String → Except String String
  stream : String → List Msg → String → List String × Option String

/-- Result of the non-streaming `/chat` endpoint: the 200 response body,
the 404 of a missing user profile, or the 500 of a model failure. -/
inductive ChatOutcome where
  | ok (response : String) (conversation_id : String)
  | notFound
  | serverError (detail : String)
  deriving DecidableEq, Repr

/-- `chat` of chatbot.py (lines 55-99): fetch the profile (404 when
absent), compose the system prompt, resolve the conversation id, fetch or
create the history, invoke the model, and on success append the user
message then the assistant reply to the history. -/
def chat (be : LLMBackend) (store : FirebaseStore) (freshId : String)
    (req : ChatRequest) (convs : ConvMap) : ChatOutcome × ConvMap :=
  match get_user_prompt_data store req.user_id with
  | none => (.notFound, convs)
  | some user_profile =>
      let system_prompt := create_health_mentor_prompt user_profile
      let conv_id := resolveConvId req.conversation_id freshId
      let hc := get_conversation conv_id convs
      let history := hc.1
      let convs1 := hc.2
      match be.complete system_prompt history req.message with
      | .error e => (.serverError e, convs1)
      | .ok response =>
          (.ok response conv_id,
           setConv convs1 conv_id
             (history ++ [⟨.user, req.message⟩, ⟨.assistant, response⟩]))

/-- The server-sent-event frames yielded by `chat_stream.generate`
(chatbot.py lines 129-147), one constructor per `type` field of the JSON
frame; `endEvent` models the frame with `type: 'end'`. -/
inductive StreamEvent where
  | start (conversation_id : String)
  | chunk (content : String)
  | endEvent
  | error (message : String)
  deriving DecidableEq, Repr

/-- The `for chunk in chain.stream(...)` loop body of `generate`: for
each fragment, extend `full_response` and yield a chunk event.  Returns
the final `full_response` together with the yielded events. -/
def streamLoop (chunks : List String) (full_response : String) :
    String × List StreamEvent :=
  match chunks with
  | [] => (full_response, [])
  | c :: rest =>
      let r := streamLoop rest (full_response ++ c)
      (r.1, .chunk c :: r.2)

/-- `generate` of `chat_stream` (chatbot.py lines 129-147): yield the
start event, consume the stream yielding chunk events, then on normal
completion append the user message and the accumulated reply to history
and yield the end event; when the stream raises partway, the `except`
clause yields the error event instead and the history appends are
skipped.  Returns the yielded events and `some` updated history on
success, `none` on failure. -/
def generate (be : LLMBackend) (system_prompt : String)
    (history : List Msg) (message conv_id : String) :
    List StreamEvent × Option (List Msg) :=
  let sr := be.stream system_prompt history message
  let r := streamLoop sr.1 ""
  match sr.2 with
  | none =>
      (.start conv_id :: r.2 ++ [.endEvent],
       some (history ++ [⟨.user, message⟩, ⟨.assistant, r.1⟩]))
  | some e =>
      (.start conv_id :: r.2 ++ [.error e], none)

/-- Result of the streaming `/chatS` endpoint: the 404 of a missing user
profile, or the streamed event sequence. -/
inductive StreamOutcome where
  | notFound
  | streaming (events : List StreamEvent)
  deriving DecidableEq, Repr

/-- `chat_stream` of chatbot.py (lines 103-149): fetch the profile (404
when absent), compose the system prompt, resolve the conversation id,
fetch or create the history, and run `generate`; the conversations map
keeps the history `generate` produced on success and is left as
`get_conversation` made it on failure. -/
def chat_stream (be : LLMBackend) (store : FirebaseStore)
    (freshId : String) (req : ChatRequest) (convs : ConvMap) :
    StreamOutcome × ConvMap :=
  match get_user_prompt_data store req.user_id with
  | none => (.notFound, convs)
  | some user_profile =>
      let system_prompt := create_health_mentor_prompt user_profile
      let conv_id := resolveConvId req.conversation_id freshId
      let hc := get_conversation conv_id convs
      let g := generate be system_prompt hc.1 req.message conv_id
      match g.2 with
      | some newHist => (.streaming g.1, setConv hc.2 conv_id newHist)
      | none => (.streaming g.1, hc.2)

/-- Concatenation of a list of text fragments, in order. -/
def concatChunks (chunks : List String) : String :=
  chunks.foldr (· ++ ·) ""

/-- The payloads of the chunk events of an event sequence, in order. -/
def chunkContents (events : List StreamEvent) : List String :=
  events.filterMap fun ev =>
    match ev with
    | .chunk c => some c
    | _ => none

/-- Whether an event is terminal (`end` or `error`). -/
def isTerminal : StreamEvent → Bool
  | .endEvent => true
  | .error _ => true
  | _ => false

/-- Modelled from the spec (§6): a backend whose `complete` and `stream`
operations are driven by one underlying generation — "consuming the
sequence drives generation" — so the full text `complete` returns is the
concatenation of the fragments `stream` yields.  This is what "an
identical model backend" with "identical inputs" means for the two
endpoints. -/
def LLMBackend.ofGeneration
    (gen : String → List Msg → String → List String) : LLMBackend where
  complete sp h m := .ok (concatChunks (gen sp h m))
  stream sp h m := (gen sp h m, none)

/-- A concrete deterministic echo backend for witnesses: `complete`
answers `R:` followed by the user message, `stream` yields the message as
a single fragment and completes. -/
def echoBE : LLMBackend where
  complete _ _ m := .ok ("R:" ++ m)
  stream _ _ m := ([m], none)

/-- A concrete backend for witnesses whose stream yields one fragment and
then fails (and whose `complete` fails outright). -/
def failingBE : LLMBackend where
  complete _ _ _ := .error "boom"
  stream _ _ _ := (["Hel"], some "boom")

/-- A concrete store for witnesses: every user id has an (empty) base
record and no profile sub-record. -/
def someUserStore : FirebaseStore where
  users _ := some {}
  profiles _ := none

/-- A concrete store for witnesses with no user records at all. -/
def emptyStore : FirebaseStore where
  users _ := none
  profiles _ := none

/-- The empty conversations map. -/
def emptyConvs : ConvMap := fun _ => none

/-- Key computation lemma: the stream-consumption loop accumulates the
concatenation of the fragments onto `full_response` and yields one chunk
event per fragment, in order. -/
theorem streamLoop_eq (chunks : List String) (acc : String) :
    streamLoop chunks acc =
      (acc ++ concatChunks chunks, chunks.map StreamEvent.chunk) := by
  induction chunks generalizing acc with
  | nil => simp [streamLoop, concatChunks]
  | cons c rest ih =>
      simp [streamLoop, concatChunks, ih, String.append_assoc]

/-- `needle` occurs as a contiguous substring of `hay`. -/
def strContains (hay needle : String) : Prop :=
  ∃ p s : List Char, hay.data = p ++ (needle.data ++ s)

/-- A string contains its own leading piece. -/
theorem strContains_head (a t : String) : strContains (a ++ t) a :=
  ⟨[], t.data, by simp⟩

/-- Containment is preserved by prepending text. -/
theorem strContains_skip {hay needle : String} (a : String)
    (h : strContains hay needle) : strContains (a ++ hay) needle := by
  obtain ⟨p, s, hp⟩ := h
  exact ⟨a.data ++ p, s, by simp [hp]⟩

/-- The medical-conditions list as the spec words it: the names of the
set condition flags, plus the `other_conditions` free text when
non-empty. -/
def activeConditionsSpec (u : NormUser) : List String :=
  ((([("hypertension", u.has_hypertension),
      ("diabetes", u.has_diabetes),
      ("heart condition", u.has_heart_condition),
      ("asthma", u.has_asthma),
      ("high cholesterol", u.has_high_cholesterol),
      ("thyroid disorder", u.has_thyroid_disorder)]).filter
        (fun p => p.2)).map (fun p => p.1)) ++
  (match u.other_conditions with
   | some s => if s = "" then [] else [s]
   | none => [])

/-- C6: the boolean normalization function `_parse_bool` maps native
`true`, the strings `"true"`, `"1"`, `"yes"` and the int `1` to `true`;
maps native `false`, `"false"`, `"0"`, `None` and the int `2` to `false`;
string matching is case-insensitive; and everything outside the true-set
(native `true`, int `1`, or a string whose lower-casing is `"true"`,
`"1"` or `"yes"`) is mapped to `false`. -/
theorem parse_bool_truth_table :
    (_parse_bool (.bool true) = true ∧
     _parse_bool (.str "true") = true ∧
     _parse_bool (.str "1") = true ∧
     _parse_bool (.str "yes") = true ∧
     _parse_bool (.int 1) = true) ∧
    (_parse_bool (.bool false) = false ∧
     _parse_bool (.str "false") = false ∧
     _parse_bool (.str "0") = false ∧
     _parse_bool .none = false ∧
     _parse_bool (.int 2) = false) ∧
    (_parse_bool (.str "TRUE") = true ∧
     _parse_bool (.str "Yes") = true ∧
     _parse_bool (.str "YES") = true) ∧
    (∀ v : PyVal, _parse_bool v = true ↔
      (v = .bool true ∨ v = .int 1 ∨
       ∃ s, v = .str s ∧
         (pyLower s = "true" ∨ pyLower s = "1" ∨ pyLower s = "yes"))) := by
  refine ⟨by decide, by decide, by decide, ?_⟩
  intro v
  cases v with
  | none => simp [_parse_bool]
  | bool b => cases b <;> simp [_parse_bool]
  | int n => simp [_parse_bool]
  | float q => simp [_parse_bool]
  | str s => simp [_parse_bool, or_assoc]

/-- C7: the BMI used by the prompt composer equals
`weight / ((height / 100) ^ 2)` when both weight and height are
positive, and equals 0 exactly when either is non-positive (including
weight = 0 or height = 0); the composer is a total function, so this
case is not an error. -/
theorem bmi_formula_and_zero_guard (weight height : ℚ) :
    (0 < weight → 0 < height →
      computeBMI weight height = weight / ((height / 100) ^ 2)) ∧
    (weight ≤ 0 ∨ height ≤ 0 → computeBMI weight height = 0) := by
  constructor
  · intro hw hh
    simp [computeBMI, hw, hh]
  · intro h
    have : ¬(0 < weight ∧ 0 < height) := by
      rcases h with h | h
      · exact fun hc => absurd hc.1 (not_lt.mpr h)
      · exact fun hc => absurd hc.2 (not_lt.mpr h)
    simp [computeBMI, this]

/-- Witness for C7 at concrete inputs: weight 70 kg / height 175 cm uses
the formula, and weight 0 yields BMI 0. -/
theorem bmi_formula_and_zero_guard_witness :
    computeBMI 70 175 = 70 / ((175 / 100) ^ 2) ∧ computeBMI 0 175 = 0 :=
  ⟨(bmi_formula_and_zero_guard 70 175).1 (by norm_num) (by norm_num),
   (bmi_formula_and_zero_guard 0 175).2 (Or.inl le_rfl)⟩

theorem conditionsList_eq_spec (u : NormUser) :
    conditionsList u = activeConditionsSpec u := by
  obtain ⟨_, _, _, _, _, _, f1, f2, f3, f4, f5, f6, oc, _, _, _, _, _,
    _, _, _, _, _, _, _, _, _⟩ := u
  cases f1 <;> cases f2 <;> cases f3 <;> cases f4 <;> cases f5 <;>
    cases f6 <;> simp [conditionsList, activeConditionsSpec]

/-- C8: the medical-conditions line of the composed prompt is the
comma-separated list of the names of the set condition flags plus the
`other_conditions` free text when non-empty, and is the literal
`"none reported"` when no flag is set and `other_conditions` is empty;
the profile with only `has_diabetes = true` and null `other_conditions`
renders the line as exactly `"diabetes"`. -/
theorem conditions_line_rendering :
    (∀ u : NormUser,
      conditionsStr u =
        if activeConditionsSpec u = [] then "none reported"
        else String.intercalate ", " (activeConditionsSpec u)) ∧
    conditionsStr (_normalize_user_data { has_diabetes := .bool true }) =
      "diabetes" := by
  constructor
  · intro u
    rw [conditionsStr, conditionsList_eq_spec]
  · decide

section TemplatePositions

variable (n a g w h b act c al m gt gi tw f cal st d mi p cb ft : String)

theorem promptTemplate_contains_allergies :
    strContains (promptTemplate n a g w h b act c al m gt gi tw f cal
      st d mi p cb ft) al := by
  unfold promptTemplate
  simp only [String.append_assoc]
  repeat first
  | exact strContains_head _ _
  | apply strContains_skip

theorem promptTemplate_contains_medications :
    strContains (promptTemplate n a g w h b act c al m gt gi tw f cal
      st d mi p cb ft) m := by
  unfold promptTemplate
  simp only [String.append_assoc]
  repeat first
  | exact strContains_head _ _
  | apply strContains_skip

theorem promptTemplate_contains_goal_type :
    strContains (promptTemplate n a g w h b act c al m gt gi tw f cal
      st d mi p cb ft) gt := by
  unfold promptTemplate
  simp only [String.append_assoc]
  repeat first
  | exact strContains_head _ _
  | apply strContains_skip

theorem promptTemplate_contains_goal_intensity :
    strContains (promptTemplate n a g w h b act c al m gt gi tw f cal
      st d mi p cb ft) gi := by
  unfold promptTemplate
  simp only [String.append_assoc]
  repeat first
  | exact strContains_head _ _
  | apply strContains_skip

theorem promptTemplate_contains_target_weight :
    strContains (promptTemplate n a g w h b act c al m gt gi tw f cal
      st d mi p cb ft) tw := by
  unfold promptTemplate
  simp only [String.append_assoc]
  repeat first
  | exact strContains_head _ _
  | apply strContains_skip

theorem promptTemplate_contains_fitness_goals :
    strContains (promptTemplate n a g w h b act c al m gt gi tw f cal
      st d mi p cb ft) f := by
  unfold promptTemplate
  simp only [String.append_assoc]
  repeat first
  | exact strContains_head _ _
  | apply strContains_skip

end TemplatePositions

/-- C9: for every profile missing an optional field, the prompt composer
succeeds (it is a total function) and its output contains the literal
fallback text for that field: `"none reported"` for allergies and for
medications, `"general wellness"` for goal type, `"moderate"` for goal
intensity, `"not set"` for target weight, and `"not specified"` for
fitness goals. -/
theorem optional_field_fallbacks (raw : RawUser) :
    (raw.allergies = none →
      strContains (create_health_mentor_prompt raw) "none reported") ∧
    (raw.medications = none →
      strContains (create_health_mentor_prompt raw) "none reported") ∧
    (raw.goal_type = none →
      strContains (create_health_mentor_prompt raw) "general wellness") ∧
    (raw.goal_intensity = none →
      strContains (create_health_mentor_prompt raw) "moderate") ∧
    (raw.target_weight_kg = none →
      strContains (create_health_mentor_prompt raw) "not set") ∧
    (raw.fitness_goals = none →
      strContains (create_health_mentor_prompt raw) "not specified") := by
  refine ⟨?_, ?_, ?_, ?_, ?_, ?_⟩ <;> intro h <;>
    simp only [create_health_mentor_prompt, _normalize_user_data, h,
      pyOrStr] <;>
    first
    | exact promptTemplate_contains_allergies ..
    | exact promptTemplate_contains_medications ..
    | exact promptTemplate_contains_goal_type ..
    | exact promptTemplate_contains_goal_intensity ..
    | exact promptTemplate_contains_target_weight ..
    | exact promptTemplate_contains_fitness_goals ..

/-- Witness for C9: the fully empty raw record misses every optional
field and its prompt contains every fallback literal. -/
theorem optional_field_fallbacks_witness :
    strContains (create_health_mentor_prompt {}) "none reported" ∧
    strContains (create_health_mentor_prompt {}) "general wellness" ∧
    strContains (create_health_mentor_prompt {}) "moderate" ∧
    strContains (create_health_mentor_prompt {}) "not set" ∧
    strContains (create_health_mentor_prompt {}) "not specified" :=
  ⟨(optional_field_fallbacks {}).1 rfl,
   (optional_field_fallbacks {}).2.2.1 rfl,
   (optional_field_fallbacks {}).2.2.2.1 rfl,
   (optional_field_fallbacks {}).2.2.2.2.1 rfl,
   (optional_field_fallbacks {}).2.2.2.2.2 rfl⟩

/-- C5: when the base user record is absent, `POST /chat` answers 404 and
the conversations map is unchanged (no conversation is created); when the
base record exists, absence of the profile sub-record alone does not
cause the 404. -/
theorem missing_user_404_no_conversation (be : LLMBackend)
    (store : FirebaseStore) (freshId : String) (req : ChatRequest)
    (convs : ConvMap) :
    (store.users req.user_id = none →
      (chat be store freshId req convs).1 = .notFound ∧
      (chat be store freshId req convs).2 = convs) ∧
    (∀ u, store.users req.user_id = some u →
      store.profiles req.user_id = none →
      (chat be store freshId req convs).1 ≠ .notFound) := by
  constructor
  · intro h
    simp [chat, get_user_prompt_data, h]
  · intro u hu hp
    simp only [chat, get_user_prompt_data, hu, hp]
    cases hbe : be.complete (create_health_mentor_prompt u)
        (get_conversation (resolveConvId req.conversation_id freshId)
          convs).1 req.message <;> simp [hbe]

/-- Witness for C5: a store without user `u1` yields 404 and leaves the
empty map unchanged; a store holding a base record for `u1` but no
profile sub-record does not yield 404. -/
theorem missing_user_404_no_conversation_witness :
    ((chat ⟨fun _ _ m => .ok m, fun _ _ m => ([m], none)⟩
        ⟨fun _ => none, fun _ => none⟩ "f"
        { message := "hi", user_id := "u1" } (fun _ => none)).1 =
      .notFound ∧
     (chat ⟨fun _ _ m => .ok m, fun _ _ m => ([m], none)⟩
        ⟨fun _ => none, fun _ => none⟩ "f"
        { message := "hi", user_id := "u1" } (fun _ => none)).2 =
      (fun _ => none)) ∧
    (chat ⟨fun _ _ m => .ok m, fun _ _ m => ([m], none)⟩
        ⟨fun u => if u = "u1" then some {} else none, fun _ => none⟩ "f"
        { message := "hi", user_id := "u1" } (fun _ => none)).1 ≠
      .notFound :=
  ⟨(missing_user_404_no_conversation _ _ _ _ _).1 rfl,
   (missing_user_404_no_conversation _ _ _ _ _).2 {} rfl rfl⟩

/-- The conversation identifier the endpoints use is never the empty
string when the fresh uuid is not. -/
theorem resolveConvId_ne_empty (cid : Option String) (freshId : String)
    (h : freshId ≠ "") : resolveConvId cid freshId ≠ "" := by
  cases cid with
  | none => simpa [resolveConvId]
  | some s =>
      by_cases hs : s = "" <;> simp [resolveConvId, hs, h]

/-- C10 (implicit): a request supplying `conversation_id = ""` is treated
exactly like one omitting it — both endpoints behave identically, the
resolved identifier is the freshly generated uuid, and (as long as the
generated uuid is non-empty) no conversation history is ever keyed by the
empty string. -/
theorem empty_conversation_id_fresh_uuid (be : LLMBackend)
    (store : FirebaseStore) (freshId : String) (req : ChatRequest)
    (convs : ConvMap) :
    (chat be store freshId { req with conversation_id := some "" } convs =
      chat be store freshId { req with conversation_id := none } convs) ∧
    (chat_stream be store freshId
        { req with conversation_id := some "" } convs =
      chat_stream be store freshId
        { req with conversation_id := none } convs) ∧
    resolveConvId (some "") freshId = freshId ∧
    (freshId ≠ "" →
      (chat be store freshId req convs).2 "" = convs "" ∧
      (chat_stream be store freshId req convs).2 "" = convs "") := by
  refine ⟨by simp [chat, resolveConvId], by simp [chat_stream, resolveConvId],
    by simp [resolveConvId], ?_⟩
  intro hf
  have hne := resolveConvId_ne_empty req.conversation_id freshId hf
  have hne2 : ¬("" = resolveConvId req.conversation_id freshId) :=
    fun hh => hne (Eq.symm hh)
  constructor
  · simp only [chat]
    cases hget : get_user_prompt_data store req.user_id with
    | none => simp
    | some p =>
        simp only
        cases hcv : convs (resolveConvId req.conversation_id freshId) with
        | some hist =>
            simp only [get_conversation, hcv]
            cases hbe : be.complete (create_health_mentor_prompt p) hist
                req.message <;>
              simp [setConv, hne2]
        | none =>
            simp only [get_conversation, hcv]
            cases hbe : be.complete (create_health_mentor_prompt p) []
                req.message <;>
              simp [setConv, hne2]
  · simp only [chat_stream]
    cases hget : get_user_prompt_data store req.user_id with
    | none => simp
    | some p =>
        simp only
        cases hcv : convs (resolveConvId req.conversation_id freshId) with
        | some hist =>
            simp only [get_conversation, hcv]
            cases hbe : (be.stream (create_health_mentor_prompt p) hist
                req.message).2 <;>
              simp [generate, hbe, setConv, hne2]
        | none =>
            simp only [get_conversation, hcv]
            cases hbe : (be.stream (create_health_mentor_prompt p) []
                req.message).2 <;>
              simp [generate, hbe, setConv, hne2]

/-- Witness for C10: with fresh uuid `f1` (non-empty) nothing is keyed by
the empty string, and the two request forms agree. -/
theorem empty_conversation_id_fresh_uuid_witness :
    (chat ⟨fun _ _ m => .ok m, fun _ _ m => ([m], none)⟩
        ⟨fun _ => some {}, fun _ => none⟩ "f1"
        { message := "hi", user_id := "u1", conversation_id := some "" }
        (fun _ => none)).2 "" = none :=
  ((empty_conversation_id_fresh_uuid _ _ _
      { message := "hi", user_id := "u1", conversation_id := some "" }
      _).2.2.2 (by decide)).1

/-- C2: two sequential successful non-streaming turns on the same (fresh)
conversation identifier leave its history containing exactly 4 messages
in order [user1, assistant1, user2, assistant2]; each completed turn
appends exactly one user message followed by one assistant message. -/
theorem two_turns_history (be : LLMBackend) (store : FirebaseStore)
    (fresh1 fresh2 : String) (req1 req2 : ChatRequest) (convs : ConvMap)
    (conv : String) (p1 p2 : RawUser) (a1 a2 : String)
    (hc1 : req1.conversation_id = some conv) (hne : conv ≠ "")
    (hc2 : req2.conversation_id = some conv)
    (hfresh : convs conv = none)
    (hp1 : get_user_prompt_data store req1.user_id = some p1)
    (hp2 : get_user_prompt_data store req2.user_id = some p2)
    (hb1 : be.complete (create_health_mentor_prompt p1) []
      req1.message = .ok a1)
    (hb2 : be.complete (create_health_mentor_prompt p2)
      [⟨.user, req1.message⟩, ⟨.assistant, a1⟩] req2.message = .ok a2) :
    (chat be store fresh1 req1 convs).1 = .ok a1 conv ∧
    (chat be store fresh1 req1 convs).2 conv =
      some [⟨.user, req1.message⟩, ⟨.assistant, a1⟩] ∧
    (chat be store fresh2 req2 (chat be store fresh1 req1 convs).2).1 =
      .ok a2 conv ∧
    (chat be store fresh2 req2 (chat be store fresh1 req1 convs).2).2
      conv =
      some [⟨.user, req1.message⟩, ⟨.assistant, a1⟩,
            ⟨.user, req2.message⟩, ⟨.assistant, a2⟩] := by
  have e1 : chat be store fresh1 req1 convs =
      (.ok a1 conv,
       setConv (setConv convs conv []) conv
         [⟨.user, req1.message⟩, ⟨.assistant, a1⟩]) := by
    simp only [chat, hp1, hc1, resolveConvId, if_neg hne,
      get_conversation, hfresh, hb1, List.nil_append]
  have hmap2 : (setConv (setConv convs conv []) conv
      [⟨.user, req1.message⟩, ⟨.assistant, a1⟩]) conv =
      some [⟨.user, req1.message⟩, ⟨.assistant, a1⟩] := by
    simp [setConv]
  have e2 : chat be store fresh2 req2
      (setConv (setConv convs conv []) conv
        [⟨.user, req1.message⟩, ⟨.assistant, a1⟩]) =
      (.ok a2 conv,
       setConv (setConv (setConv convs conv []) conv
           [⟨.user, req1.message⟩, ⟨.assistant, a1⟩]) conv
         [⟨.user, req1.message⟩, ⟨.assistant, a1⟩,
          ⟨.user, req2.message⟩, ⟨.assistant, a2⟩]) := by
    simp only [chat, hp2, hc2, resolveConvId, if_neg hne,
      get_conversation, hmap2, hb2, List.cons_append, List.nil_append]
  refine ⟨by rw [e1], by rw [e1]; exact hmap2, by rw [e1, e2], ?_⟩
  rw [e1, e2]
  simp [setConv]

/-- Witness for C2 at a concrete backend, store and two requests. -/
theorem two_turns_history_witness :
    (chat echoBE someUserStore "f2"
        { message := "m2", user_id := "u", conversation_id := some "c" }
        (chat echoBE someUserStore "f1"
          { message := "m1", user_id := "u", conversation_id := some "c" }
          emptyConvs).2).2 "c" =
      some [⟨.user, "m1"⟩, ⟨.assistant, "R:m1"⟩,
            ⟨.user, "m2"⟩, ⟨.assistant, "R:m2"⟩] :=
  (two_turns_history echoBE someUserStore "f1" "f2"
    { message := "m1", user_id := "u", conversation_id := some "c" }
    { message := "m2", user_id := "u", conversation_id := some "c" }
    emptyConvs "c" {} {} "R:m1" "R:m2"
    rfl (by decide) rfl rfl rfl rfl rfl rfl).2.2.2

theorem chunkContents_map_chunk (l : List String)
    (rest : List StreamEvent) :
    chunkContents (l.map StreamEvent.chunk ++ rest) =
      l ++ chunkContents rest := by
  induction l with
  | nil => rfl
  | cons c cs ih => simp [chunkContents] at ih ⊢; exact ih

theorem filter_terminal_decomp (cid : String) (l : List String)
    (t : StreamEvent) (ht : isTerminal t = true) :
    (StreamEvent.start cid :: (l.map StreamEvent.chunk ++ [t])).filter
      (fun e => isTerminal e) = [t] := by
  cases t with
  | start c => simp [isTerminal] at ht
  | chunk c => simp [isTerminal] at ht
  | endEvent =>
      induction l with
      | nil => rfl
      | cons c cs ih => exact ih
  | error m =>
      induction l with
      | nil => rfl
      | cons c cs ih => exact ih

/-- C3: every streaming turn emits exactly one `start` event (carrying
the resolved conversation id) first, then one `chunk` event per generated
fragment in generation order, then exactly one terminal event — `end` on
success, `error` (with the message) on failure — and no event follows the
terminal one (the terminal event is the last, every earlier event is
non-terminal, and exactly one terminal event occurs). -/
theorem stream_event_order (be : LLMBackend) (store : FirebaseStore)
    (fresh : String) (req : ChatRequest) (convs : ConvMap)
    (events : List StreamEvent)
    (h : (chat_stream be store fresh req convs).1 = .streaming events) :
    ∃ profile frags errOpt t,
      get_user_prompt_data store req.user_id = some profile ∧
      be.stream (create_health_mentor_prompt profile)
        (get_conversation (resolveConvId req.conversation_id fresh)
          convs).1 req.message = (frags, errOpt) ∧
      events = .start (resolveConvId req.conversation_id fresh) ::
        (frags.map .chunk ++ [t]) ∧
      (errOpt = none → t = .endEvent) ∧
      (∀ m, errOpt = some m → t = .error m) ∧
      isTerminal t = true ∧
      chunkContents events = frags ∧
      events.getLast? = some t ∧
      events.filter (fun e => isTerminal e) = [t] ∧
      (∀ e ∈ .start (resolveConvId req.conversation_id fresh) ::
        frags.map StreamEvent.chunk, isTerminal e = false) := by
  unfold chat_stream at h
  cases hget : get_user_prompt_data store req.user_id with
  | none => rw [hget] at h; simp at h
  | some p =>
      rw [hget] at h
      cases hE : (be.stream (create_health_mentor_prompt p)
          (get_conversation (resolveConvId req.conversation_id fresh)
            convs).1 req.message).2 with
      | none =>
          simp only [generate, hE, streamLoop_eq,
            StreamOutcome.streaming.injEq] at h
          subst h
          refine ⟨p, (be.stream (create_health_mentor_prompt p)
            (get_conversation (resolveConvId req.conversation_id fresh)
              convs).1 req.message).1, none, .endEvent, rfl,
            Prod.ext rfl hE, rfl, fun _ => rfl,
            fun m hm => Option.noConfusion hm, rfl, ?_, ?_, ?_, ?_⟩
          · show chunkContents (List.map StreamEvent.chunk _ ++
              [StreamEvent.endEvent]) = _
            rw [chunkContents_map_chunk]
            simp [chunkContents]
          · exact List.getLast?_concat _
          · exact filter_terminal_decomp _ _ _ rfl
          · intro e he
            rcases List.mem_cons.mp he with rfl | hmem
            · rfl
            · obtain ⟨c, _, rfl⟩ := List.mem_map.mp hmem
              rfl
      | some msg =>
          simp only [generate, hE, streamLoop_eq,
            StreamOutcome.streaming.injEq] at h
          subst h
          refine ⟨p, (be.stream (create_health_mentor_prompt p)
            (get_conversation (resolveConvId req.conversation_id fresh)
              convs).1 req.message).1, some msg, .error msg, rfl,
            Prod.ext rfl hE, rfl, fun hn => Option.noConfusion hn,
            fun m hm => by
              rw [show msg = m from Option.some.injEq _ _ ▸ hm], rfl,
            ?_, ?_, ?_, ?_⟩
          · show chunkContents (List.map StreamEvent.chunk _ ++
              [StreamEvent.error msg]) = _
            rw [chunkContents_map_chunk]
            simp [chunkContents]
          · exact List.getLast?_concat _
          · exact filter_terminal_decomp _ _ _ rfl
          · intro e he
            rcases List.mem_cons.mp he with rfl | hmem
            · rfl
            · obtain ⟨c, _, rfl⟩ := List.mem_map.mp hmem
              rfl

/-- Witness for C3: the echo backend streaming turn produces the
concrete event sequence, so the decomposition applies to it. -/
theorem stream_event_order_witness :
    ∃ profile frags errOpt t,
      get_user_prompt_data someUserStore "u1" = some profile ∧
      echoBE.stream (create_health_mentor_prompt profile)
        (get_conversation (resolveConvId (some "c1") "f")
          emptyConvs).1 "hi" = (frags, errOpt) ∧
      [StreamEvent.start "c1", .chunk "hi", .endEvent] =
        .start (resolveConvId (some "c1") "f") ::
        (frags.map .chunk ++ [t]) ∧
      (errOpt = none → t = .endEvent) ∧
      (∀ m, errOpt = some m → t = .error m) ∧
      isTerminal t = true ∧
      chunkContents [StreamEvent.start "c1", .chunk "hi", .endEvent] =
        frags ∧
      ([StreamEvent.start "c1", .chunk "hi",
        .endEvent] : List StreamEvent).getLast? = some t ∧
      ([StreamEvent.start "c1", .chunk "hi", .endEvent] :
        List StreamEvent).filter (fun e => isTerminal e) = [t] ∧
      (∀ e ∈ .start (resolveConvId (some "c1") "f") ::
        frags.map StreamEvent.chunk, isTerminal e = false) :=
  stream_event_order echoBE someUserStore "f"
    { message := "hi", user_id := "u1", conversation_id := some "c1" }
    emptyConvs [StreamEvent.start "c1", .chunk "hi", .endEvent] rfl

/-- C1 (amended): in streaming mode the user message is appended to the
history before the model reply on every successful turn; but when the
model call fails partway through streaming (after the stream has started,
before it completes), the `except` clause skips both appends, so the
user message is NOT appended and the history content is unchanged. -/
theorem stream_append_order_and_failure (be : LLMBackend)
    (store : FirebaseStore) (fresh : String) (req : ChatRequest)
    (convs : ConvMap) (profile : RawUser)
    (hp : get_user_prompt_data store req.user_id = some profile) :
    ((be.stream (create_health_mentor_prompt profile)
        (get_conversation (resolveConvId req.conversation_id fresh)
          convs).1 req.message).2 = none →
      (chat_stream be store fresh req convs).2
          (resolveConvId req.conversation_id fresh) =
        some ((get_conversation (resolveConvId req.conversation_id fresh)
            convs).1 ++
          [⟨.user, req.message⟩,
           ⟨.assistant, concatChunks (be.stream
             (create_health_mentor_prompt profile)
             (get_conversation (resolveConvId req.conversation_id fresh)
               convs).1 req.message).1⟩])) ∧
    (∀ e, (be.stream (create_health_mentor_prompt profile)
        (get_conversation (resolveConvId req.conversation_id fresh)
          convs).1 req.message).2 = some e →
      (chat_stream be store fresh req convs).2
          (resolveConvId req.conversation_id fresh) =
        some (get_conversation (resolveConvId req.conversation_id fresh)
          convs).1) := by
  constructor
  · intro hE
    simp only [chat_stream, hp, generate, hE, streamLoop_eq,
      String.empty_append, setConv]
    simp
  · intro e hE
    simp only [chat_stream, hp, generate, hE, streamLoop_eq]
    cases hcv : convs (resolveConvId req.conversation_id fresh) with
    | some hist => simp [get_conversation, hcv]
    | none => simp [get_conversation, hcv, setConv]

/-- Witness for C1 (amended): on the echo backend the turn appends
[user, assistant] in order; on the backend that fails after one chunk
the history stays empty. -/
theorem stream_append_order_and_failure_witness :
    (chat_stream echoBE someUserStore "f"
        { message := "hi", user_id := "u1", conversation_id := some "c1" }
        emptyConvs).2 "c1" =
      some [⟨.user, "hi"⟩, ⟨.assistant, "hi"⟩] ∧
    (chat_stream failingBE someUserStore "f"
        { message := "hi", user_id := "u1", conversation_id := some "c2" }
        emptyConvs).2 "c2" = some [] :=
  ⟨(stream_append_order_and_failure echoBE someUserStore "f"
      { message := "hi", user_id := "u1", conversation_id := some "c1" }
      emptyConvs {} rfl).1 rfl,
   (stream_append_order_and_failure failingBE someUserStore "f"
      { message := "hi", user_id := "u1", conversation_id := some "c2" }
      emptyConvs {} rfl).2 "boom" rfl⟩

/-- Counterexample to C1 as stated: with a backend whose stream starts
(one chunk is emitted) and then fails, the turn on fresh conversation
`c1` yields the event trace [start, chunk, error] — the stream did start
and failed before completing — yet the stored history for `c1` is still
the empty list: the user message `hi` was not appended. -/
theorem stream_failure_skips_user_append_cex :
    (chat_stream failingBE someUserStore "f"
        { message := "hi", user_id := "u1", conversation_id := some "c1" }
        emptyConvs).1 =
      .streaming [.start "c1", .chunk "Hel", .error "boom"] ∧
    (chat_stream failingBE someUserStore "f"
        { message := "hi", user_id := "u1", conversation_id := some "c1" }
        emptyConvs).2 "c1" = some [] ∧
    (⟨.user, "hi"⟩ : Msg) ∉ ([] : List Msg) := by
  refine ⟨by decide, by decide, by decide⟩

/-- C4: for an identical model backend (one generation drives both
`complete` and `stream`) and identical inputs, the concatenation of the
chunk payloads emitted by the streaming endpoint equals the full response
returned by the non-streaming endpoint. -/
theorem stream_concat_matches_complete
    (gen : String → List Msg → String → List String)
    (store : FirebaseStore) (fresh : String) (req : ChatRequest)
    (convs : ConvMap) (profile : RawUser)
    (hp : get_user_prompt_data store req.user_id = some profile) :
    ∃ events response,
      (chat_stream (LLMBackend.ofGeneration gen) store fresh req
        convs).1 = .streaming events ∧
      (chat (LLMBackend.ofGeneration gen) store fresh req convs).1 =
        .ok response (resolveConvId req.conversation_id fresh) ∧
      concatChunks (chunkContents events) = response := by
  refine ⟨.start (resolveConvId req.conversation_id fresh) ::
    ((gen (create_health_mentor_prompt profile)
      (get_conversation (resolveConvId req.conversation_id fresh)
        convs).1 req.message).map .chunk ++ [.endEvent]),
    concatChunks (gen (create_health_mentor_prompt profile)
      (get_conversation (resolveConvId req.conversation_id fresh)
        convs).1 req.message), ?_, ?_, ?_⟩
  · simp only [chat_stream, hp, generate, LLMBackend.ofGeneration,
      streamLoop_eq]
    rfl
  · simp only [chat, hp, LLMBackend.ofGeneration]
  · show concatChunks (chunkContents (_ :: _)) = _
    rw [show chunkContents (StreamEvent.start
        (resolveConvId req.conversation_id fresh) ::
        ((gen (create_health_mentor_prompt profile)
          (get_conversation (resolveConvId req.conversation_id fresh)
            convs).1 req.message).map .chunk ++ [.endEvent])) =
      chunkContents ((gen (create_health_mentor_prompt profile)
        (get_conversation (resolveConvId req.conversation_id fresh)
          convs).1 req.message).map .chunk ++ [.endEvent]) from rfl]
    rw [chunkContents_map_chunk]
    simp [chunkContents]

/-- Witness for C4 on a concrete two-fragment generation. -/
theorem stream_concat_matches_complete_witness :
    ∃ events response,
      (chat_stream (LLMBackend.ofGeneration fun _ _ m => [m, "!"])
        someUserStore "f"
        { message := "hi", user_id := "u1", conversation_id := some "c1" }
        emptyConvs).1 = .streaming events ∧
      (chat (LLMBackend.ofGeneration fun _ _ m => [m, "!"])
        someUserStore "f"
        { message := "hi", user_id := "u1", conversation_id := some "c1" }
        emptyConvs).1 =
        .ok response (resolveConvId (some "c1") "f") ∧
      concatChunks (chunkContents events) = response :=
  stream_concat_matches_complete (fun _ _ m => [m, "!"]) someUserStore
    "f" { message := "hi", user_id := "u1", conversation_id := some "c1" }
    emptyConvs {} rfl

/-- Witness for C6: the characterization applied at the concrete
case-insensitive input `"TRUE"`. -/
theorem parse_bool_truth_table_witness :
    _parse_bool (.str "TRUE") = true ↔
      ((.str "TRUE" : PyVal) = .bool true ∨ (.str "TRUE" : PyVal) = .int 1 ∨
       ∃ s, (.str "TRUE" : PyVal) = .str s ∧
         (pyLower s = "true" ∨ pyLower s = "1" ∨ pyLower s = "yes")) :=
  parse_bool_truth_table.2.2.2 (.str "TRUE")

/-- Witness for C8: the rendering characterization applied to the
diabetes-only profile. -/
theorem conditions_line_rendering_witness :
    conditionsStr (_normalize_user_data { has_diabetes := .bool true }) =
      if activeConditionsSpec
          (_normalize_user_data { has_diabetes := .bool true }) = [] then
        "none reported"
      else
        String.intercalate ", "
          (activeConditionsSpec
            (_normalize_user_data { has_diabetes := .bool true })) :=
  conditions_line_rendering.1 _
